import Mathlib

/-!
Shallow embedding of the VideoConferenceMeeting client (src/app/page.tsx and
src/app/room/[roomid]/page.tsx) in Lean 4.

The room page is a small state machine around an opaque third-party widget:
a widget reference (`zegoRef`), a transient connection-error message, and a
retry counter.  We embed the component state as a record, the handlers
(`cleanupMedia`, `initializeMeeting`, `onNetworkStatusError`,
`onConnectionStateChanged`, the Retry button, unmount cleanup) as state
transformers, and the SDK/browser environment (resolved room id, environment
variables, whether the SDK create/join calls throw) as an explicit `Env`
record.  Widget instances are identified by a fresh counter; calls to the
SDK's `destroy`, token generation and `create`/`joinRoom` are recorded in the
state so that theorems can speak about which external calls were made.
JavaScript `throw`/`try`/`catch` is modelled by `tryBody` returning the state
reached so far together with an optional thrown error.  Per the spec's
non-goals, React render/closure scheduling is not modelled: handlers act on
the current component state.
-/

namespace VideoConf

/-- JavaScript truthiness of a `string | null | undefined` value:
`null`/`undefined` and the empty string are falsy. -/
def truthyStr : Option String → Bool
  | none => false
  | some s => !(s == "")

/-! ### JavaScript `parseInt`

`initializeMeeting` runs `parseInt(process.env.NEXT_PUBLIC_ZEGO_APP_ID!)` and
then checks `isNaN(appID)`.  We model the numeric result as `Option Int`,
with `none` standing for `NaN`.  `parseInt` with no radix argument skips
leading whitespace, reads an optional sign, treats a `0x`/`0X` prefix as
hexadecimal, and returns `NaN` when no digit follows; `parseInt(undefined)`
is `NaN`. -/

def isJsSpace (c : Char) : Bool :=
  c == ' ' || c == '\t' || c == '\n' || c == '\r' || c == '\x0b' || c == '\x0c'

def isHexDigitChar (c : Char) : Bool :=
  c.isDigit || (97 ≤ c.toNat && c.toNat ≤ 102) || (65 ≤ c.toNat && c.toNat ≤ 70)

def hexDigitValue (c : Char) : Nat :=
  if c.isDigit then c.toNat - 48
  else if 97 ≤ c.toNat && c.toNat ≤ 102 then c.toNat - 87
  else c.toNat - 55

def digitsToNat (base : Nat) (cs : List Char) : Nat :=
  cs.foldl (fun a c => a * base + hexDigitValue c) 0

def parseIntStr (s : String) : Option Int :=
  let cs := s.toList.dropWhile isJsSpace
  let signed :=
    match cs with
    | '-' :: rest => (true, rest)
    | '+' :: rest => (false, rest)
    | _ => (false, cs)
  let based :=
    match signed.2 with
    | '0' :: c :: rest => if c == 'x' || c == 'X' then (16, rest) else (10, signed.2)
    | _ => (10, signed.2)
  let ds := based.2.takeWhile (fun c => if based.1 == 16 then isHexDigitChar c else c.isDigit)
  if ds.isEmpty then none
  else
    let n := digitsToNat based.1 ds
    some (if signed.1 then -(n : Int) else (n : Int))

def parseIntJS : Option String → Option Int
  | none => none
  | some s => parseIntStr s

/-! ### Constants and messages (src/app/room/[roomid]/page.tsx lines 29-33) -/

def RETRY_DELAY : Nat := 5000
def JOIN_TIMEOUT : Nat := 8000
def MEETING_DURATION : Nat := 18000
def LEAVE_REDIRECT_DELAY : Nat := 500
def MAX_RETRIES : Nat := 3

def netErrMsg : String := "Network connection error. Attempting to reconnect..."
def maxRetryMsg : String := "Maximum retry attempts reached. Please check your network."
def initFailMsg : String := "Failed to initialize meeting. Please try again."
def noRoomMsg : String := "No room ID provided"

/-- Component state of the `Room` page.  `zegoRef` is the widget reference
(`none` = `null`); widget instances are numbered by `nextWidgetId`.
`destroyLog` records every `zegoRef.current.destroy()` call, `initEntryRefs`
records the value of `zegoRef` observed each time `initializeMeeting` is
entered, and `tokensCreated`/`createCalls`/`joinCalls` count calls to the
SDK's `generateKitTokenForTest`, `create` and `joinRoom`. -/
structure RoomState where
  zegoRef : Option Nat
  connectionError : Option String
  retryCount : Nat
  nextWidgetId : Nat
  destroyLog : List Nat
  initEntryRefs : List (Option Nat)
  tokensCreated : Nat
  createCalls : Nat
  joinCalls : Nat
deriving Repr, DecidableEq

/-- External inputs to one run of `initializeMeeting`: the resolved room id
(as the JavaScript value, possibly `null`/`undefined` or empty), the two
environment variables, whether the call container ref is mounted, and whether
the SDK's `create`/`joinRoom` calls throw. -/
structure Env where
  roomId : Option String
  appIdEnv : Option String
  serverSecret : Option String
  containerPresent : Bool
  createThrows : Bool
  joinThrows : Bool
deriving Repr, DecidableEq

/-- `cleanupMedia` (lines 46-64): stops media tracks (no component state),
then, if the widget reference is held, destroys the widget and nulls the
reference. -/
def cleanupMedia (s : RoomState) : RoomState :=
  match s.zegoRef with
  | some w => { s with zegoRef := none, destroyLog := s.destroyLog ++ [w] }
  | none => s

/-- The body of the `try` block of `initializeMeeting` (lines 80-143).
Returns the state reached when the block finishes or throws, together with
the thrown error if any (so that effects performed before a throw persist, as
in JavaScript). -/
def tryBody (env : Env) (s : RoomState) : RoomState × Option String :=
  match parseIntJS env.appIdEnv with
  | none => (s, some "Invalid App ID")
  | some _appID =>
    if truthyStr env.serverSecret = false then
      (s, some "Server Secret is missing")
    else
      let s1 := { s with tokensCreated := s.tokensCreated + 1 }
      let s2 := { s1 with createCalls := s1.createCalls + 1 }
      if env.createThrows then
        (s2, some "SDK create failed")
      else
        let w := s2.nextWidgetId
        let s3 := { s2 with zegoRef := some w, nextWidgetId := w + 1 }
        if env.containerPresent then
          let s4 := { s3 with joinCalls := s3.joinCalls + 1 }
          if env.joinThrows then (s4, some "SDK joinRoom failed") else (s4, none)
        else (s3, none)

/-- Record the widget reference seen when `initializeMeeting` is entered. -/
def logEntry (s : RoomState) : RoomState :=
  { s with initEntryRefs := s.initEntryRefs ++ [s.zegoRef] }

/-- `initializeMeeting` (lines 73-148): guard on the room id, then run the
`try` block; a thrown error is caught and surfaced only as the generic
connection-error message. -/
def initializeMeeting (env : Env) (s : RoomState) : RoomState :=
  if truthyStr env.roomId = false then
    { logEntry s with connectionError := some noRoomMsg }
  else
    match tryBody env (logEntry s) with
    | (s1, none) => s1
    | (s1, some _err) => { s1 with connectionError := some initFailMsg }

/-- The branch of `onNetworkStatusError` after the initial
`setConnectionError` (lines 121-129): while strictly below `MAX_RETRIES`,
increment the counter and arm the retry timer; otherwise overwrite the
message and schedule nothing. -/
def netErrBranch (s1 : RoomState) : RoomState × Option Nat :=
  if s1.retryCount < MAX_RETRIES then
    ({ s1 with retryCount := s1.retryCount + 1 }, some RETRY_DELAY)
  else
    ({ s1 with connectionError := some maxRetryMsg }, none)

/-- The `onNetworkStatusError` callback (lines 118-130).  Returns the new
state together with the delay (in ms) after which a retry
(`cleanupMedia(); initializeMeeting()`) is scheduled, or `none` when no
retry is scheduled. -/
def netErrCallback (s : RoomState) : RoomState × Option Nat :=
  netErrBranch { s with connectionError := some netErrMsg }

/-- The `onConnectionStateChanged` callback (lines 131-136). -/
def onConnectionStateChanged (st : String) (s : RoomState) : RoomState :=
  if st == "CONNECTED" then { s with connectionError := none, retryCount := 0 }
  else s

/-- The `onDeviceError` callback (lines 138-141). -/
def onDeviceError (message : String) (s : RoomState) : RoomState :=
  { s with connectionError := some ("Device error: " ++ message) }

/-- The retry timer scheduled by `onNetworkStatusError` firing:
`cleanupMedia(); initializeMeeting();` (lines 123-126). -/
def retryTimerFired (env : Env) (s : RoomState) : RoomState :=
  initializeMeeting env (cleanupMedia s)

/-- The manual Retry button (lines 180-184):
`setConnectionError(null); cleanupMedia(); initializeMeeting();`. -/
def retryButtonClicked (env : Env) (s : RoomState) : RoomState :=
  initializeMeeting env (cleanupMedia { s with connectionError := none })

/-- The unmount cleanup returned by the effect (lines 153-155). -/
def unmountCleanup (s : RoomState) : RoomState :=
  cleanupMedia s

/-- Events acting on the room component state. -/
inductive Ev where
  | mount (env : Env)
  | netErr
  | timerFire (env : Env)
  | connState (st : String)
  | retryClick (env : Env)
  | unmount
  | deviceErr (msg : String)
deriving Repr, DecidableEq

def step (s : RoomState) (e : Ev) : RoomState :=
  match e with
  | .mount env => initializeMeeting env s
  | .netErr => (netErrCallback s).1
  | .timerFire env => retryTimerFired env s
  | .connState st => onConnectionStateChanged st s
  | .retryClick env => retryButtonClicked env s
  | .unmount => unmountCleanup s
  | .deviceErr msg => onDeviceError msg s

def run (s : RoomState) : List Ev → RoomState
  | [] => s
  | e :: es => run (step s e) es

/-- Initial component state: null widget ref, no error, retry count 0. -/
def initState : RoomState :=
  { zegoRef := none, connectionError := none, retryCount := 0,
    nextWidgetId := 0, destroyLog := [], initEntryRefs := [],
    tokensCreated := 0, createCalls := 0, joinCalls := 0 }

/-- A step together with the number of automatic retries it schedules
(1 when `onNetworkStatusError` arms the retry timer, else 0). -/
def stepSched (s : RoomState) (e : Ev) : RoomState × Nat :=
  match e with
  | .netErr => ((netErrCallback s).1, if (netErrCallback s).2.isSome then 1 else 0)
  | _ => (step s e, 0)

def runSched (s : RoomState) : List Ev → RoomState × Nat
  | [] => (s, 0)
  | e :: es =>
    let q := stepSched s e
    let r := runSched q.1 es
    (r.1, q.2 + r.2)

/-- An event is not a successful-connection report. -/
def notConnectedEv : Ev → Bool
  | .connState st => !(st == "CONNECTED")
  | _ => true

/-! ### Room id resolution and the room page's render (lines 36-38, 158-193) -/

/-- `searchParams.get('roomID') || paramsValue?.roomid`: the query parameter
when truthy, otherwise the path segment. -/
def resolveRoomId (query : Option String) (pathSeg : Option String) : Option String :=
  if truthyStr query then query else pathSeg

inductive RoomView where
  | errorView (message : String)
  | callView (connectionError : Option String)
deriving Repr, DecidableEq

/-- The room page's render: the static error view when the resolved room id
is falsy, otherwise the call container (with the error banner content). -/
def renderRoom (roomId : Option String) (connectionError : Option String) : RoomView :=
  if truthyStr roomId = false then RoomView.errorView noRoomMsg
  else RoomView.callView connectionError

/-! ### Home page (src/app/page.tsx) -/

inductive Control where
  | roomIdInput
  | connectButton
  | createRoomButton
deriving Repr, DecidableEq

/-- The render guard `fullName && fullName.length >= 3` (line 88). -/
def showRoomControls (fullName : String) : Bool :=
  (!(fullName == "")) && decide (3 ≤ fullName.length)

/-- The room controls rendered by the home page for a given display name. -/
def homeRoomControls (fullName : String) : List Control :=
  if showRoomControls fullName then
    [Control.roomIdInput, Control.connectButton, Control.createRoomButton]
  else []

/-- `handleConnect` (lines 34-40): pushes `/room/${roomId}` when the room-id
input is truthy (non-empty), else does nothing.  The result is the route
navigated to, if any. -/
def handleConnect (roomId : String) : Option String :=
  if !(roomId == "") then some ("/room/" ++ roomId) else none

/-- `handleCreateRoom` (lines 43-48): pushes `/room/${newRoomId}` where
`newRoomId` is the string returned by the external `uuid()` (v4) generator,
taken here as an input. -/
def handleCreateRoom (newRoomId : String) : String :=
  "/room/" ++ newRoomId

/-! ### Helper lemmas -/

theorem cleanupMedia_zegoRef (s : RoomState) : (cleanupMedia s).zegoRef = none := by
  unfold cleanupMedia
  cases h : s.zegoRef <;> simp [h]

theorem cleanupMedia_of_some (s : RoomState) (w : Nat) (h : s.zegoRef = some w) :
    cleanupMedia s = { s with zegoRef := none, destroyLog := s.destroyLog ++ [w] } := by
  unfold cleanupMedia
  rw [h]

theorem cleanupMedia_of_none (s : RoomState) (h : s.zegoRef = none) :
    cleanupMedia s = s := by
  unfold cleanupMedia
  rw [h]

theorem cleanupMedia_fields (s : RoomState) :
    (cleanupMedia s).connectionError = s.connectionError
    ∧ (cleanupMedia s).retryCount = s.retryCount
    ∧ (cleanupMedia s).nextWidgetId = s.nextWidgetId
    ∧ (cleanupMedia s).initEntryRefs = s.initEntryRefs
    ∧ (cleanupMedia s).tokensCreated = s.tokensCreated
    ∧ (cleanupMedia s).createCalls = s.createCalls
    ∧ (cleanupMedia s).joinCalls = s.joinCalls := by
  unfold cleanupMedia
  cases s.zegoRef <;> simp

theorem tryBody_fields (env : Env) (s : RoomState) :
    (tryBody env s).1.connectionError = s.connectionError
    ∧ (tryBody env s).1.retryCount = s.retryCount
    ∧ (tryBody env s).1.destroyLog = s.destroyLog
    ∧ (tryBody env s).1.initEntryRefs = s.initEntryRefs := by
  unfold tryBody
  cases parseIntJS env.appIdEnv <;> simp <;> repeat' (first | rfl | constructor | split | simp)

theorem tryBody_widget (env : Env) (s : RoomState) :
    ((tryBody env s).1.zegoRef = s.zegoRef ∧ (tryBody env s).1.nextWidgetId = s.nextWidgetId)
    ∨ ((tryBody env s).1.zegoRef = some s.nextWidgetId
        ∧ (tryBody env s).1.nextWidgetId = s.nextWidgetId + 1) := by
  unfold tryBody
  cases parseIntJS env.appIdEnv <;> simp <;> repeat' (first | split | simp | tauto)

theorem logEntry_fields (s : RoomState) :
    (logEntry s).zegoRef = s.zegoRef
    ∧ (logEntry s).connectionError = s.connectionError
    ∧ (logEntry s).retryCount = s.retryCount
    ∧ (logEntry s).nextWidgetId = s.nextWidgetId
    ∧ (logEntry s).destroyLog = s.destroyLog
    ∧ (logEntry s).initEntryRefs = s.initEntryRefs ++ [s.zegoRef] := by
  unfold logEntry
  simp

theorem initializeMeeting_retryCount (env : Env) (s : RoomState) :
    (initializeMeeting env s).retryCount = s.retryCount := by
  unfold initializeMeeting
  split
  · rfl
  · split
    next s1 heq =>
      have h := (tryBody_fields env (logEntry s)).2.1
      rw [heq] at h
      exact h
    next s1 e heq =>
      have h := (tryBody_fields env (logEntry s)).2.1
      rw [heq] at h
      exact h

theorem initializeMeeting_destroyLog (env : Env) (s : RoomState) :
    (initializeMeeting env s).destroyLog = s.destroyLog := by
  unfold initializeMeeting
  split
  · rfl
  · split
    next s1 heq =>
      have h := (tryBody_fields env (logEntry s)).2.2.1
      rw [heq] at h
      exact h
    next s1 e heq =>
      have h := (tryBody_fields env (logEntry s)).2.2.1
      rw [heq] at h
      exact h

theorem initializeMeeting_initEntryRefs (env : Env) (s : RoomState) :
    (initializeMeeting env s).initEntryRefs = s.initEntryRefs ++ [s.zegoRef] := by
  unfold initializeMeeting
  split
  · exact (logEntry_fields s).2.2.2.2.2
  · split
    next s1 heq =>
      have h := (tryBody_fields env (logEntry s)).2.2.2
      rw [heq] at h
      exact h
    next s1 e heq =>
      have h := (tryBody_fields env (logEntry s)).2.2.2
      rw [heq] at h
      exact h

theorem netErrCallback_eq (s : RoomState) :
    netErrCallback s =
      if s.retryCount < MAX_RETRIES then
        ({ s with connectionError := some netErrMsg, retryCount := s.retryCount + 1 },
          some RETRY_DELAY)
      else
        ({ s with connectionError := some maxRetryMsg }, none) := by
  unfold netErrCallback netErrBranch
  split <;> rfl

theorem netErrCallback_fields (s : RoomState) :
    (netErrCallback s).1.zegoRef = s.zegoRef
    ∧ (netErrCallback s).1.nextWidgetId = s.nextWidgetId
    ∧ (netErrCallback s).1.destroyLog = s.destroyLog
    ∧ (netErrCallback s).1.initEntryRefs = s.initEntryRefs := by
  rw [netErrCallback_eq]
  split <;> simp

theorem step_retryCount_le (s : RoomState) (e : Ev) (h : s.retryCount ≤ MAX_RETRIES) :
    (step s e).retryCount ≤ MAX_RETRIES := by
  cases e with
  | mount env =>
      simpa [step, initializeMeeting_retryCount] using h
  | netErr =>
      simp only [step]
      rw [netErrCallback_eq]
      split
      · simp
        omega
      · simpa using h
  | timerFire env =>
      simp only [step, retryTimerFired]
      rw [initializeMeeting_retryCount, (cleanupMedia_fields s).2.1]
      exact h
  | connState st =>
      simp only [step]
      unfold onConnectionStateChanged
      split
      · simp [MAX_RETRIES]
      · exact h
  | retryClick env =>
      simp only [step, retryButtonClicked]
      rw [initializeMeeting_retryCount, (cleanupMedia_fields _).2.1]
      exact h
  | unmount =>
      simp only [step, unmountCleanup]
      rw [(cleanupMedia_fields s).2.1]
      exact h
  | deviceErr msg =>
      simpa [step, onDeviceError] using h

theorem run_retryCount_le (es : List Ev) : ∀ s : RoomState,
    s.retryCount ≤ MAX_RETRIES → (run s es).retryCount ≤ MAX_RETRIES := by
  induction es with
  | nil => intro s h; exact h
  | cons e es ih =>
      intro s h
      exact ih _ (step_retryCount_le s e h)

theorem stepSched_fst (s : RoomState) (e : Ev) : (stepSched s e).1 = step s e := by
  cases e <;> rfl

theorem stepSched_count (s : RoomState) (e : Ev) (h : notConnectedEv e = true) :
    s.retryCount + (stepSched s e).2 ≤ (stepSched s e).1.retryCount := by
  cases e with
  | mount env =>
      simp [stepSched, step, initializeMeeting_retryCount]
  | netErr =>
      simp only [stepSched]
      rw [netErrCallback_eq]
      split
      · simp
      · simp
  | timerFire env =>
      simp only [stepSched, step, retryTimerFired]
      rw [initializeMeeting_retryCount, (cleanupMedia_fields s).2.1]
      simp
  | connState st =>
      simp only [stepSched, step]
      unfold onConnectionStateChanged
      simp only [notConnectedEv, Bool.not_eq_true'] at h
      rw [if_neg (by simp [h])]
      simp
  | retryClick env =>
      simp only [stepSched, step, retryButtonClicked]
      rw [initializeMeeting_retryCount, (cleanupMedia_fields _).2.1]
      simp
  | unmount =>
      simp only [stepSched, step, unmountCleanup]
      rw [(cleanupMedia_fields s).2.1]
      simp
  | deviceErr msg =>
      simp [stepSched, step, onDeviceError]

theorem runSched_le (es : List Ev) : ∀ s : RoomState,
    (∀ e ∈ es, notConnectedEv e = true) → s.retryCount ≤ MAX_RETRIES →
    s.retryCount + (runSched s es).2 ≤ MAX_RETRIES := by
  induction es with
  | nil =>
      intro s _ h
      simpa [runSched] using h
  | cons e es ih =>
      intro s hall h
      have he : notConnectedEv e = true := hall e (List.mem_cons_self e es)
      have hstep := stepSched_count s e he
      have hle : (stepSched s e).1.retryCount ≤ MAX_RETRIES := by
        rw [stepSched_fst]
        exact step_retryCount_le s e h
      have hrest := ih (stepSched s e).1
        (fun x hx => hall x (List.mem_cons_of_mem e hx)) hle
      simp only [runSched]
      omega

/-- Freshness invariant for widget instances: destroyed widgets are pairwise
distinct, every recorded widget id is below the fresh counter, and a held
widget is fresh and not yet destroyed. -/
def WidgetInv (s : RoomState) : Prop :=
  s.destroyLog.Nodup
  ∧ (∀ w ∈ s.destroyLog, w < s.nextWidgetId)
  ∧ (∀ w : Nat, s.zegoRef = some w → w < s.nextWidgetId ∧ w ∉ s.destroyLog)

theorem WidgetInv_congr {s t : RoomState} (hz : t.zegoRef = s.zegoRef)
    (hd : t.destroyLog = s.destroyLog) (hn : t.nextWidgetId = s.nextWidgetId)
    (h : WidgetInv s) : WidgetInv t := by
  obtain ⟨h1, h2, h3⟩ := h
  refine ⟨hd ▸ h1, ?_, ?_⟩
  · intro w hw
    rw [hn]
    exact h2 w (by rwa [hd] at hw)
  · intro w hw
    rw [hd, hn]
    exact h3 w (by rwa [hz] at hw)

theorem cleanupMedia_inv (s : RoomState) (h : WidgetInv s) :
    WidgetInv (cleanupMedia s) := by
  obtain ⟨hnd, hlt, href⟩ := h
  cases hz : s.zegoRef with
  | none =>
      rw [cleanupMedia_of_none s hz]
      exact ⟨hnd, hlt, href⟩
  | some w =>
      rw [cleanupMedia_of_some s w hz]
      obtain ⟨hwlt, hwmem⟩ := href w hz
      refine ⟨?_, ?_, ?_⟩
      · simp only [List.nodup_append, List.nodup_cons, List.not_mem_nil, not_false_iff,
          List.nodup_nil, and_true, List.disjoint_singleton]
        exact ⟨hnd, trivial, hwmem⟩
      · intro x hx
        simp only [List.mem_append, List.mem_singleton] at hx
        rcases hx with hx | hx
        · exact hlt x hx
        · subst hx
          exact hwlt
      · intro x hx
        simp at hx

theorem initializeMeeting_widget (env : Env) (s : RoomState) :
    ((initializeMeeting env s).zegoRef = s.zegoRef
      ∧ (initializeMeeting env s).nextWidgetId = s.nextWidgetId)
    ∨ ((initializeMeeting env s).zegoRef = some s.nextWidgetId
      ∧ (initializeMeeting env s).nextWidgetId = s.nextWidgetId + 1) := by
  unfold initializeMeeting
  split
  · left
    exact ⟨rfl, rfl⟩
  · split
    next s1 heq =>
      have h := tryBody_widget env (logEntry s)
      rw [heq] at h
      simpa [logEntry] using h
    next s1 e heq =>
      have h := tryBody_widget env (logEntry s)
      rw [heq] at h
      simpa [logEntry] using h

theorem initializeMeeting_inv (env : Env) (s : RoomState) (h : WidgetInv s) :
    WidgetInv (initializeMeeting env s) := by
  obtain ⟨hnd, hlt, href⟩ := h
  have hd := initializeMeeting_destroyLog env s
  rcases initializeMeeting_widget env s with ⟨hz, hn⟩ | ⟨hz, hn⟩
  · exact WidgetInv_congr hz hd hn ⟨hnd, hlt, href⟩
  · refine ⟨hd ▸ hnd, ?_, ?_⟩
    · intro w hw
      rw [hn]
      have := hlt w (by rwa [hd] at hw)
      omega
    · intro w hw
      rw [hz] at hw
      injection hw with hw
      subst hw
      constructor
      · omega
      · rw [hd]
        intro hmem
        exact absurd (hlt _ hmem) (lt_irrefl _)

theorem step_inv (s : RoomState) (e : Ev) (h : WidgetInv s) : WidgetInv (step s e) := by
  cases e with
  | mount env => exact initializeMeeting_inv env s h
  | netErr =>
      have hf := netErrCallback_fields s
      exact WidgetInv_congr hf.1 hf.2.2.1 hf.2.1 h
  | timerFire env =>
      exact initializeMeeting_inv env _ (cleanupMedia_inv s h)
  | connState st =>
      simp only [step]
      unfold onConnectionStateChanged
      split
      · exact WidgetInv_congr rfl rfl rfl h
      · exact h
  | retryClick env =>
      refine initializeMeeting_inv env _ (cleanupMedia_inv _ ?_)
      exact WidgetInv_congr rfl rfl rfl h
  | unmount => exact cleanupMedia_inv s h
  | deviceErr msg => exact WidgetInv_congr rfl rfl rfl h

theorem run_inv (es : List Ev) : ∀ s : RoomState, WidgetInv s → WidgetInv (run s es) := by
  induction es with
  | nil => intro s h; exact h
  | cons e es ih =>
      intro s h
      exact ih _ (step_inv s e h)

theorem initState_inv : WidgetInv initState := by
  refine ⟨List.nodup_nil, ?_, ?_⟩
  · intro w hw
    simp [initState] at hw
  · intro w hw
    simp [initState] at hw

theorem initializeMeeting_noRoom (env : Env) (s : RoomState)
    (h : truthyStr env.roomId = false) :
    initializeMeeting env s = { logEntry s with connectionError := some noRoomMsg } := by
  unfold initializeMeeting
  rw [if_pos h]

theorem tryBody_badCreds (env : Env) (s : RoomState)
    (hbad : parseIntJS env.appIdEnv = none ∨ env.serverSecret = none) :
    (tryBody env s).2.isSome = true := by
  unfold tryBody
  cases hp : parseIntJS env.appIdEnv with
  | none => simp
  | some v =>
      rcases hbad with h | h
      · rw [hp] at h
        exact Option.noConfusion h
      · rw [if_pos (by rw [h]; rfl)]
        simp

/-! ### Claim theorems -/

/-- C1: every `onNetworkStatusError` invocation sets the connection-error
message; while the retry count is strictly below `MAX_RETRIES` it increments
the counter and schedules, after the fixed `RETRY_DELAY` of 5000 ms, the
retry action `cleanupMedia(); initializeMeeting()`, whose cleanup releases
(nulls) the widget reference; once the count has reached `MAX_RETRIES` (3)
the message becomes the maximum-retry message and no retry is scheduled;
consequently along any event sequence without a successful connection,
starting from retry count 0, at most `MAX_RETRIES` automatic retries are
scheduled. -/
theorem retry_loop_bounded :
    (RETRY_DELAY = 5000 ∧ MAX_RETRIES = 3)
    ∧ (∀ s : RoomState, s.retryCount < MAX_RETRIES →
        netErrCallback s =
          ({ s with connectionError := some netErrMsg, retryCount := s.retryCount + 1 },
            some RETRY_DELAY))
    ∧ (∀ s : RoomState, MAX_RETRIES ≤ s.retryCount →
        netErrCallback s = ({ s with connectionError := some maxRetryMsg }, none))
    ∧ (∀ env : Env, ∀ s : RoomState,
        retryTimerFired env s = initializeMeeting env (cleanupMedia s)
        ∧ (cleanupMedia s).zegoRef = none)
    ∧ (∀ s : RoomState, ∀ es : List Ev,
        (∀ e ∈ es, notConnectedEv e = true) → s.retryCount = 0 →
        (runSched s es).2 ≤ MAX_RETRIES) := by
  refine ⟨⟨rfl, rfl⟩, ?_, ?_, ?_, ?_⟩
  · intro s h
    rw [netErrCallback_eq, if_pos h]
  · intro s h
    rw [netErrCallback_eq, if_neg (by omega)]
  · intro env s
    exact ⟨rfl, cleanupMedia_zegoRef s⟩
  · intro s es hall h0
    have := runSched_le es s hall (by omega)
    omega

theorem retry_loop_bounded_witness :
    netErrCallback { initState with retryCount := 3 }
      = ({ initState with retryCount := 3, connectionError := some maxRetryMsg }, none)
    ∧ (runSched initState [Ev.netErr, Ev.netErr, Ev.netErr, Ev.netErr]).2 ≤ MAX_RETRIES := by
  constructor
  · exact retry_loop_bounded.2.2.1 { initState with retryCount := 3 } (by decide)
  · exact retry_loop_bounded.2.2.2.2 initState [Ev.netErr, Ev.netErr, Ev.netErr, Ev.netErr]
      (by decide) rfl

/-- C2: when the resolved room identifier is absent (falsy), the room page
renders the static 'No room ID provided' error view, and `initializeMeeting`
returns after setting that message without creating a token or invoking the
SDK's `create`/`joinRoom`; conversely a join call can only happen when a
room identifier is present. -/
theorem no_room_id_guard :
    (∀ env : Env, ∀ s : RoomState, truthyStr env.roomId = false →
      initializeMeeting env s = { logEntry s with connectionError := some noRoomMsg }
      ∧ (initializeMeeting env s).tokensCreated = s.tokensCreated
      ∧ (initializeMeeting env s).createCalls = s.createCalls
      ∧ (initializeMeeting env s).joinCalls = s.joinCalls
      ∧ renderRoom env.roomId s.connectionError = RoomView.errorView noRoomMsg)
    ∧ (∀ env : Env, ∀ s : RoomState,
        (initializeMeeting env s).joinCalls ≠ s.joinCalls →
        truthyStr env.roomId = true) := by
  constructor
  · intro env s h
    refine ⟨initializeMeeting_noRoom env s h, ?_, ?_, ?_, ?_⟩
    · rw [initializeMeeting_noRoom env s h]
      rfl
    · rw [initializeMeeting_noRoom env s h]
      rfl
    · rw [initializeMeeting_noRoom env s h]
      rfl
    · unfold renderRoom
      rw [if_pos h]
  · intro env s h
    by_cases ht : truthyStr env.roomId = true
    · exact ht
    · exfalso
      apply h
      rw [initializeMeeting_noRoom env s (by simpa using ht)]
      rfl

theorem no_room_id_guard_witness :
    initializeMeeting (Env.mk none (some "1") (some "x") true false false) initState
      = { logEntry initState with connectionError := some noRoomMsg } :=
  (no_room_id_guard.1 (Env.mk none (some "1") (some "x") true false false) initState rfl).1

/-- C3: the home page renders the room controls (room-id input, Connect
button, Create Room button) exactly when the display name is non-empty and
at least 3 characters long; any name of length 0, 1 or 2 hides them. -/
theorem name_length_gate :
    (∀ name : String,
      homeRoomControls name
          = [Control.roomIdInput, Control.connectButton, Control.createRoomButton]
        ↔ (name ≠ "" ∧ 3 ≤ name.length))
    ∧ (∀ name : String, name.length < 3 → homeRoomControls name = []) := by
  have hshow : ∀ name : String,
      showRoomControls name = true ↔ (name ≠ "" ∧ 3 ≤ name.length) := by
    intro name
    unfold showRoomControls
    simp
  constructor
  · intro name
    unfold homeRoomControls
    split
    next h =>
      simp only [true_iff]
      exact (hshow name).mp h
    next h =>
      constructor
      · intro hL
        exact absurd hL (by simp)
      · intro hc
        exact absurd ((hshow name).mpr hc) h
  · intro name hlt
    unfold homeRoomControls
    split
    next h =>
      exfalso
      have := ((hshow name).mp h).2
      omega
    next h => rfl

theorem name_length_gate_witness :
    homeRoomControls "ab" = []
    ∧ homeRoomControls "abc"
        = [Control.roomIdInput, Control.connectButton, Control.createRoomButton] := by
  constructor
  · exact name_length_gate.2 "ab" (by decide)
  · exact (name_length_gate.1 "abc").mpr ⟨by decide, by decide⟩

/-- C4: with a room identifier present, if the application-id environment
variable does not parse as a number (`isNaN`) or the server-secret variable
is absent, `initializeMeeting` fails and sets the generic initialization
failure message. -/
theorem invalid_credentials_message (env : Env) (s : RoomState)
    (hroom : truthyStr env.roomId = true)
    (hbad : parseIntJS env.appIdEnv = none ∨ env.serverSecret = none) :
    (initializeMeeting env s).connectionError = some initFailMsg := by
  unfold initializeMeeting
  rw [if_neg (by simp [hroom])]
  have hb := tryBody_badCreds env (logEntry s) hbad
  split
  next s1 heq =>
    rw [heq] at hb
    simp at hb
  next s1 e heq => rfl

theorem invalid_credentials_message_witness :
    (initializeMeeting (Env.mk (some "room1") none none true false false)
        initState).connectionError = some initFailMsg :=
  invalid_credentials_message _ initState rfl (Or.inl rfl)

/-- C5: no failure path of `initializeMeeting` escapes to the caller: when
the `try` block throws (its result carries an error), the returned component
state is exactly the state the block had reached, with only the
connection-error message replaced by the generic failure message — every
failure is caught and is local UI state. -/
theorem init_failures_caught (env : Env) (s : RoomState)
    (hroom : truthyStr env.roomId = true)
    (herr : (tryBody env (logEntry s)).2.isSome = true) :
    initializeMeeting env s
      = { (tryBody env (logEntry s)).1 with connectionError := some initFailMsg } := by
  unfold initializeMeeting
  rw [if_neg (by simp [hroom])]
  split
  next s1 heq =>
    rw [heq] at herr
    simp at herr
  next s1 e heq =>
    rw [heq]

theorem init_failures_caught_witness :
    initializeMeeting (Env.mk (some "r") (some "123") (some "sec") true true false) initState
      = { (tryBody (Env.mk (some "r") (some "123") (some "sec") true true false)
            (logEntry initState)).1 with connectionError := some initFailMsg } :=
  init_failures_caught _ initState rfl (by decide)

/-- C6: pressing Connect with a non-empty room-id input navigates to
`/room/` followed by the entered string used verbatim, and pressing Create
Room navigates to `/room/` followed by the freshly generated uuid-v4
identifier (the string returned by the external generator). -/
theorem home_navigation_routes :
    (∀ roomId : String, roomId ≠ "" →
      handleConnect roomId = some ("/room/" ++ roomId))
    ∧ (∀ newRoomId : String, handleCreateRoom newRoomId = "/room/" ++ newRoomId) := by
  constructor
  · intro roomId h
    unfold handleConnect
    simp [h]
  · intro newRoomId
    rfl

theorem home_navigation_routes_witness :
    handleConnect "abc" = some ("/room/" ++ "abc") :=
  home_navigation_routes.1 "abc" (by decide)

/-- C7: before each re-initialization of the widget (retry timer, Retry
button) the reference is cleared first — `initializeMeeting` observes a null
widget reference at entry in both flows — and the unmount cleanup leaves the
reference null; `cleanupMedia` destroys a held widget and nulls the
reference, and performs no widget action when the reference is already
null. -/
theorem cleanup_before_reinitialize :
    (∀ env : Env, ∀ s : RoomState,
      (retryTimerFired env s).initEntryRefs = s.initEntryRefs ++ [none])
    ∧ (∀ env : Env, ∀ s : RoomState,
      (retryButtonClicked env s).initEntryRefs = s.initEntryRefs ++ [none])
    ∧ (∀ s : RoomState, (unmountCleanup s).zegoRef = none)
    ∧ (∀ s : RoomState, ∀ w : Nat, s.zegoRef = some w →
      cleanupMedia s = { s with zegoRef := none, destroyLog := s.destroyLog ++ [w] })
    ∧ (∀ s : RoomState, s.zegoRef = none → cleanupMedia s = s) := by
  refine ⟨?_, ?_, ?_, cleanupMedia_of_some, cleanupMedia_of_none⟩
  · intro env s
    unfold retryTimerFired
    rw [initializeMeeting_initEntryRefs, (cleanupMedia_fields s).2.2.2.1,
      cleanupMedia_zegoRef]
  · intro env s
    unfold retryButtonClicked
    rw [initializeMeeting_initEntryRefs, (cleanupMedia_fields _).2.2.2.1,
      cleanupMedia_zegoRef]
  · exact fun s => cleanupMedia_zegoRef s

theorem cleanup_before_reinitialize_witness :
    cleanupMedia { initState with zegoRef := some 0 }
      = { initState with destroyLog := [0] } :=
  cleanup_before_reinitialize.2.2.2.1 { initState with zegoRef := some 0 } 0 rfl

/-- C8: the `roomID` query parameter takes precedence over the `roomid` path
segment; the path segment is used exactly when the query value is absent or
the empty string; and a room page reached with an empty-string query value
and no path segment renders the error view. -/
theorem query_param_precedence :
    (∀ q p : Option String, truthyStr q = true → resolveRoomId q p = q)
    ∧ (∀ q p : Option String, truthyStr q = false → resolveRoomId q p = p)
    ∧ (∀ q : Option String, truthyStr q = false ↔ (q = none ∨ q = some ""))
    ∧ renderRoom (resolveRoomId (some "") none) none = RoomView.errorView noRoomMsg := by
  refine ⟨?_, ?_, ?_, rfl⟩
  · intro q p h
    unfold resolveRoomId
    rw [if_pos h]
  · intro q p h
    unfold resolveRoomId
    rw [if_neg (by simp [h])]
  · intro q
    cases q with
    | none => simp [truthyStr]
    | some s => simp [truthyStr]

theorem query_param_precedence_witness :
    resolveRoomId (some "abc") (some "xyz") = some "abc" :=
  query_param_precedence.1 (some "abc") (some "xyz") rfl

/-- C9: the retry counter starts at 0 and satisfies
`retryCount ≤ MAX_RETRIES` in every state reachable by component events; a
network-error callback increments it by at most 1, and by exactly 1 only
while strictly below `MAX_RETRIES` (otherwise it is unchanged); the
connection-state callback resets it to 0 and clears the error message
exactly on 'CONNECTED' and leaves the state unchanged on every other
reported state. -/
theorem retry_count_invariant :
    initState.retryCount = 0
    ∧ (∀ es : List Ev, (run initState es).retryCount ≤ MAX_RETRIES)
    ∧ (∀ s : RoomState, (netErrCallback s).1.retryCount ≤ s.retryCount + 1)
    ∧ (∀ s : RoomState, s.retryCount < MAX_RETRIES →
        (netErrCallback s).1.retryCount = s.retryCount + 1)
    ∧ (∀ s : RoomState, MAX_RETRIES ≤ s.retryCount →
        (netErrCallback s).1.retryCount = s.retryCount)
    ∧ (∀ s : RoomState, onConnectionStateChanged "CONNECTED" s
        = { s with connectionError := none, retryCount := 0 })
    ∧ (∀ st : String, ∀ s : RoomState, st ≠ "CONNECTED" →
        onConnectionStateChanged st s = s) := by
  refine ⟨rfl, ?_, ?_, ?_, ?_, ?_, ?_⟩
  · intro es
    exact run_retryCount_le es initState (by decide)
  · intro s
    rw [netErrCallback_eq]
    split
    · simp
    · simp
  · intro s h
    rw [netErrCallback_eq, if_pos h]
  · intro s h
    rw [netErrCallback_eq, if_neg (by omega)]
  · intro s
    rfl
  · intro st s h
    unfold onConnectionStateChanged
    rw [if_neg (by simp [h])]

theorem retry_count_invariant_witness :
    (netErrCallback initState).1.retryCount = initState.retryCount + 1
    ∧ onConnectionStateChanged "RECONNECTING" initState = initState := by
  constructor
  · exact retry_count_invariant.2.2.2.1 initState (by decide)
  · exact retry_count_invariant.2.2.2.2.2.2 "RECONNECTING" initState (by decide)

/-- C10: `cleanupMedia` is idempotent with respect to the widget reference —
a second immediate call finds the reference null and performs no widget
action; after any call the reference is null; destroying a held widget is
logged exactly once; and along every event sequence from the initial state
each created widget instance is destroyed at most once (the destroy log
stays duplicate-free). -/
theorem cleanup_media_idempotent :
    (∀ s : RoomState, cleanupMedia (cleanupMedia s) = cleanupMedia s)
    ∧ (∀ s : RoomState, (cleanupMedia s).zegoRef = none)
    ∧ (∀ s : RoomState, ∀ w : Nat, s.zegoRef = some w →
        (cleanupMedia s).destroyLog = s.destroyLog ++ [w])
    ∧ (∀ s : RoomState, s.zegoRef = none → cleanupMedia s = s)
    ∧ (∀ es : List Ev, ((run initState es).destroyLog).Nodup) := by
  refine ⟨?_, cleanupMedia_zegoRef, ?_, cleanupMedia_of_none, ?_⟩
  · intro s
    exact cleanupMedia_of_none _ (cleanupMedia_zegoRef s)
  · intro s w h
    rw [cleanupMedia_of_some s w h]
  · intro es
    exact (run_inv es initState initState_inv).1

theorem cleanup_media_idempotent_witness :
    (cleanupMedia { initState with zegoRef := some 7 }).destroyLog
      = { initState with zegoRef := some 7 }.destroyLog ++ [7] :=
  cleanup_media_idempotent.2.2.1 { initState with zegoRef := some 7 } 7 rfl

end VideoConf
